import Mathlib

/-!
Shallow embedding in Lean 4 of the FluxCam webcam application
(`src/Flux_Cam.py`): the v4l2 control-line parser
(`WebcamController.parse_and_create_controls`), the per-frame
capture/transform pipeline (`VideoThread.run` / `VideoThread.apply_effect`),
the pixel-level semantics of the Sepia and Emboss effects, and the small
pieces of mutable state (`rotate`, `running`) together with the methods
acting on them (`WebcamController.rotate_video`, `VideoThread.stop`,
`WebcamController.update_control`).
-/

namespace FluxCam

/-! ## Control parsing (`parse_and_create_controls`, Flux_Cam.py lines 512-543)

The Python code scrapes `v4l2-ctl --list-ctrls` output line by line with two
`re.match` patterns.  We embed the two concrete regular expressions as
deterministic character-list parsers with the same semantics (anchored at the
start of the line, unanchored at the end, greedy `.*` realised as a
last-match search). -/

inductive CtrlKind where
  | Integer
  | Boolean
deriving DecidableEq, Repr

/-- One control as assembled by `create_slider_control(name, min, max,
current, default)`: the widget keeps the bounds, the current value and the
default. -/
structure DeviceControl where
  name : String
  kind : CtrlKind
  min : Int
  max : Int
  default : Int
  current : Int
deriving DecidableEq, Repr

/-- Python `\w` on the ASCII inputs at hand: letters, digits, underscore. -/
def isWordChar (c : Char) : Bool := c.isAlphanum || c = '_'

/-- Python `\s` on ASCII: space, tab, newline, carriage return, vertical
tab, form feed. -/
def isSpaceChar (c : Char) : Bool :=
  c = ' ' || c = '\t' || c = '\n' || c = '\r' || c = '\x0b' || c = '\x0c'

/-- Predicate `startsWithCL pre l` : does `l` start with `pre`? -/
def startsWithCL : List Char → List Char → Bool
  | [], _ => true
  | _ :: _, [] => false
  | a :: as, b :: bs => a = b && startsWithCL as bs

/-- Python `sub in line` substring containment. -/
def containsCL (sub : List Char) : List Char → Bool
  | [] => startsWithCL sub []
  | c :: rest => startsWithCL sub (c :: rest) || containsCL sub rest

/-- Match a literal string, returning the remainder. -/
def matchLit : List Char → List Char → Option (List Char)
  | [], l => some l
  | _ :: _, [] => none
  | c :: cs, d :: ds => if c = d then matchLit cs ds else none

/-- Pattern `\w+` : one or more word characters (greedy; the following pattern
element in every use below cannot consume a word character, so greedy
matching is deterministic here). -/
def word1 (l : List Char) : Option (List Char × List Char) :=
  let w := l.takeWhile isWordChar
  if w.isEmpty then none else some (w, l.dropWhile isWordChar)

/-- Pattern `\s+` : one or more whitespace characters. -/
def spaces1 (l : List Char) : Option (List Char) :=
  match l with
  | [] => none
  | c :: rest => if isSpaceChar c then some (rest.dropWhile isSpaceChar) else none

/-- Pattern `\s*`. -/
def spaces0 (l : List Char) : List Char := l.dropWhile isSpaceChar

/-- Digit-list to number, most significant first. -/
def digitsToNat (ds : List Char) : Nat :=
  ds.foldl (fun a c => 10 * a + (c.toNat - 48)) 0

/-- Pattern `\d+` : one or more digits (greedy). -/
def natTok (l : List Char) : Option (Nat × List Char) :=
  let ds := l.takeWhile Char.isDigit
  if ds.isEmpty then none else some (digitsToNat ds, l.dropWhile Char.isDigit)

/-- Pattern `-?\d+` : optionally signed integer token. -/
def intTok (l : List Char) : Option (Int × List Char) :=
  match l with
  | '-' :: rest =>
    match natTok rest with
    | some (n, l') => some (-(n : Int), l')
    | none => none
  | _ =>
    match natTok l with
    | some (n, l') => some ((n : Int), l')
    | none => none

/-- The tail `default=(-?\d+)\s+value=(-?\d+)` of the integer-control
pattern, tried at a fixed position (the pattern is not end-anchored, so any
trailing text is allowed). -/
def tailDefVal (l : List Char) : Option (Int × Int) := do
  let l ← matchLit "default=".toList l
  let (df, l) ← intTok l
  let l ← spaces1 l
  let l ← matchLit "value=".toList l
  let (cur, _) ← intTok l
  return (df, cur)

/-- Greedy `.*` followed by `tailDefVal`: the rightmost position at which
the tail matches wins, exactly as Python's backtracking resolves
`.*default=(-?\d+)\s+value=(-?\d+)`. -/
def searchDefVal : List Char → Option (Int × Int)
  | [] => tailDefVal []
  | c :: rest => (searchDefVal rest) <|> tailDefVal (c :: rest)

/-- The integer-control pattern of Flux_Cam.py line 521:
`\s*(\w+)\s+0x\w+\s+\((\w+)\)\s*:\s*min=(-?\d+)\s+max=(-?\d+).*default=(-?\d+)\s+value=(-?\d+)`
applied with `re.match` (anchored at the start only).  Returns the captured
groups `(name, type, min, max, default, value)`. -/
def matchIntLine (line : List Char) : Option (List Char × List Char × Int × Int × Int × Int) := do
  let l := spaces0 line
  let (name, l) ← word1 l
  let l ← spaces1 l
  let l ← matchLit "0x".toList l
  let (_, l) ← word1 l
  let l ← spaces1 l
  let l ← matchLit "(".toList l
  let (ty, l) ← word1 l
  let l ← matchLit ")".toList l
  let l := spaces0 l
  let l ← matchLit ":".toList l
  let l := spaces0 l
  let l ← matchLit "min=".toList l
  let (mn, l) ← intTok l
  let l ← spaces1 l
  let l ← matchLit "max=".toList l
  let (mx, l) ← intTok l
  let (df, cur) ← searchDefVal l
  return (name, ty, mn, mx, df, cur)

/-- The boolean-control pattern of Flux_Cam.py line 537:
`\s*(\w+)\s+0x\w+\s+\(bool\)\s*:\s*default=(\d+)\s+value=(\d+)`
applied with `re.match`.  Returns `(name, default, value)`. -/
def matchBoolLine (line : List Char) : Option (List Char × Int × Int) := do
  let l := spaces0 line
  let (name, l) ← word1 l
  let l ← spaces1 l
  let l ← matchLit "0x".toList l
  let (_, l) ← word1 l
  let l ← spaces1 l
  let l ← matchLit "(bool)".toList l
  let l := spaces0 l
  let l ← matchLit ":".toList l
  let l := spaces0 l
  let l ← matchLit "default=".toList l
  let (df, l) ← natTok l
  let l ← spaces1 l
  let l ← matchLit "value=".toList l
  let (cur, _) ← natTok l
  return (name, (df : Int), (cur : Int))

/-- One iteration of the `for line in lines` loop of
`parse_and_create_controls`: section headers and blank lines are skipped;
a line matching the integer pattern yields an integer control when its type
is `int` and it contains neither `inactive` nor `flags=has-payload`; only
lines NOT matching the integer pattern fall through to the boolean branch,
which is guarded by `'(bool)' in line and 'inactive' not in line`.  At most
one control per line. -/
def parseLineChars (l : List Char) : List DeviceControl :=
  if l.all isSpaceChar || containsCL "User Controls".toList l
      || containsCL "Camera Controls".toList l then []
  else
    match matchIntLine l with
    | some (name, ty, mn, mx, df, cur) =>
      if ty = "int".toList && !(containsCL "inactive".toList l)
          && !(containsCL "flags=has-payload".toList l) then
        [⟨String.mk name, CtrlKind.Integer, mn, mx, df, cur⟩]
      else []
    | none =>
      if containsCL "(bool)".toList l && !(containsCL "inactive".toList l) then
        match matchBoolLine l with
        | some (name, df, cur) => [⟨String.mk name, CtrlKind.Boolean, 0, 1, df, cur⟩]
        | none => []
      else []

/-- Processing of one input line, on strings. -/
def parseControlLine (line : String) : List DeviceControl :=
  parseLineChars line.toList

/-- Python `output.split('\n')` on a character list: empty pieces are kept. -/
def splitNewlines : List Char → List (List Char)
  | [] => [[]]
  | '\n' :: rest => [] :: splitNewlines rest
  | c :: rest =>
    match splitNewlines rest with
    | [] => [[c]]
    | piece :: pieces => (c :: piece) :: pieces

/-- Function `parse_and_create_controls(output)`: split the tool output on
newlines and process every line in order; the list of produced controls. -/
def parse_and_create_controls (output : String) : List DeviceControl :=
  (splitNewlines output.toList).flatMap parseLineChars

/-! ## Pixel-level effect semantics (`apply_effect`, Flux_Cam.py lines 79-125)

Frames delivered by `cv2.VideoCapture` are 8-bit BGR: channel 0 is blue,
channel 1 green, channel 2 red.  A pixel is `Fin 3 → ℤ`, each channel in
`[0, 255]`. -/

/-- OpenCV `saturate_cast<uchar>`: clamp an integer to the 8-bit range. -/
def sat8 (z : Int) : Int := max 0 (min 255 z)

/-- OpenCV `cvRound`: round a value to the nearest integer, ties to even. -/
def cvRound (q : ℚ) : Int :=
  let f := ⌊q⌋
  let frac := q - (f : ℚ)
  if frac < 1/2 then f
  else if 1/2 < frac then f + 1
  else if 2 ∣ f then f else f + 1

/-- The 3×3 matrix passed to `cv2.transform` in the `sepia` branch
(Flux_Cam.py lines 101-103), row by row as written in the source. -/
def sepiaKernel : Fin 3 → Fin 3 → ℚ :=
  ![![0.272, 0.534, 0.131],
    ![0.349, 0.686, 0.168],
    ![0.393, 0.769, 0.189]]

/-- OpenCV `cv2.transform(frame, m)` at one pixel of an 8-bit image: output channel
`i` is `saturate_cast<uchar>(cvRound(Σ_j m[i][j] · src[j]))`, the source
channels taken in stored (BGR) order. -/
def cv2_transform3 (m : Fin 3 → Fin 3 → ℚ) (p : Fin 3 → Int) : Fin 3 → Int :=
  fun i => sat8 (cvRound (∑ j, m i j * (p j : ℚ)))

/-- The Sepia effect at one pixel: `cv2.transform(frame, kernel)` with the
source's kernel (Flux_Cam.py line 104). -/
def sepiaPixel (p : Fin 3 → Int) : Fin 3 → Int := cv2_transform3 sepiaKernel p

/-- The Sepia formula as the SPEC states it (for comparison with
`sepiaPixel`): `output_R = 0.393·R + 0.769·G + 0.189·B` rows applied to the
red/green/blue values, clamped to the 8-bit range.  With BGR channel order,
`R = p 2`, `G = p 1`, `B = p 0`. -/
def sepiaSpecPixel (p : Fin 3 → Int) : Fin 3 → Int :=
  fun i =>
    let B := (p 0 : ℚ)
    let G := (p 1 : ℚ)
    let R := (p 2 : ℚ)
    match i with
    | 0 => sat8 (cvRound (0.272 * R + 0.534 * G + 0.131 * B))
    | 1 => sat8 (cvRound (0.349 * R + 0.686 * G + 0.168 * B))
    | 2 => sat8 (cvRound (0.393 * R + 0.769 * G + 0.189 * B))

/-- The 3×3 kernel of the `emboss` branch (Flux_Cam.py lines 114-116). -/
def embossKernel : Fin 3 → Fin 3 → Int :=
  ![![0, -1, -1],
    ![1, 0, -1],
    ![1, 1, 0]]

/-- The 3×3 kernel of the `sharpen` branch (Flux_Cam.py lines 120-122). -/
def sharpenKernel : Fin 3 → Fin 3 → Int :=
  ![![0, -1, 0],
    ![-1, 5, -1],
    ![0, -1, 0]]

/-- OpenCV `cv2.filter2D(src, -1, kernel)` at one interior pixel of one channel of
an 8-bit image: cross-correlation of the kernel with the 3×3 neighbourhood
(`n i j` is the channel value at row offset `i-1`, column offset `j-1`),
saturated to 8 bits because `ddepth = -1` keeps the `uint8` depth. -/
def filter2D_at (k : Fin 3 → Fin 3 → Int) (n : Fin 3 → Fin 3 → Int) : Int :=
  sat8 (∑ i, ∑ j, k i j * n i j)

/-- The Emboss effect at one interior pixel of one channel:
`cv2.filter2D(frame, -1, kernel) + 128` (Flux_Cam.py line 117).  The `+ 128`
is NumPy `uint8` addition, which wraps modulo 256. -/
def emboss_at (n : Fin 3 → Fin 3 → Int) : Int :=
  (filter2D_at embossKernel n + 128) % 256

/-! ## Per-frame pipeline (`VideoThread.run`, Flux_Cam.py lines 36-77)

The OpenCV image operations are opaque library calls; the pipeline is
embedded generically over an arbitrary frame type and an arbitrary
interpretation of those calls, so the theorems below are about the ORDER
and SELECTION of the calls, which is all the source determines. -/

inductive RotateCode where
  | ROTATE_90_CLOCKWISE
  | ROTATE_180
  | ROTATE_90_COUNTERCLOCKWISE
deriving DecidableEq

inductive ColorCode where
  | BGR2GRAY
  | GRAY2BGR
  | BGR2RGB
deriving DecidableEq

/-- The OpenCV / NumPy primitives used by `VideoThread.run` and
`VideoThread.apply_effect`, with the argument shapes of the call sites. -/
structure CvOps (F : Type) where
  flip : F → Int → F
  rotate : F → RotateCode → F
  cvtColor : F → ColorCode → F
  GaussianBlur : F → Int × Int → Int → F
  Canny : F → Int → Int → F
  medianBlur : F → Int → F
  adaptiveThreshold : F → Int → Int → Int → F
  bilateralFilter : F → Int → Int → Int → F
  bitwiseAnd : F → F → F → F
  transform : F → (Fin 3 → Fin 3 → ℚ) → F
  bitwiseNot : F → F
  filter2D : F → Int → (Fin 3 → Fin 3 → Int) → F
  addScalar : F → Int → F

/-- Method `VideoThread.apply_effect` (Flux_Cam.py lines 79-125): dispatch on the
effect tag, one branch per tag, unknown tags fall through to the identity. -/
def apply_effect {F : Type} (cv : CvOps F) (effect : String) (frame : F) : F :=
  if effect = "none" then frame
  else if effect = "blur" then cv.GaussianBlur frame (15, 15) 0
  else if effect = "edge" then
    let gray := cv.cvtColor frame ColorCode.BGR2GRAY
    let edges := cv.Canny gray 100 200
    cv.cvtColor edges ColorCode.GRAY2BGR
  else if effect = "cartoon" then
    let gray := cv.cvtColor frame ColorCode.BGR2GRAY
    let gray := cv.medianBlur gray 5
    let edges := cv.adaptiveThreshold gray 255 9 9
    let color := cv.bilateralFilter frame 9 300 300
    cv.bitwiseAnd color color edges
  else if effect = "sepia" then cv.transform frame sepiaKernel
  else if effect = "negative" then cv.bitwiseNot frame
  else if effect = "grayscale" then
    let gray := cv.cvtColor frame ColorCode.BGR2GRAY
    cv.cvtColor gray ColorCode.GRAY2BGR
  else if effect = "emboss" then
    cv.addScalar (cv.filter2D frame (-1) embossKernel) 128
  else if effect = "sharpen" then cv.filter2D frame (-1) sharpenKernel
  else frame

/-- The mutable fields of `VideoThread` set in `__init__`
(Flux_Cam.py lines 22-29). -/
structure VideoThreadState where
  device : Option Int
  running : Bool
  mirror : Bool
  flip : Bool
  rotate : Int
  effect : String
deriving DecidableEq

/-- Constructor `VideoThread.__init__`: device unset, not running, no transform. -/
def VideoThread_init : VideoThreadState :=
  { device := none, running := false, mirror := false, flip := false,
    rotate := 0, effect := "none" }

/-- The body of one successful iteration of the capture loop
(Flux_Cam.py lines 53-71): mirror, flip, rotation, effect, BGR→RGB
conversion, transcribed statement by statement. -/
def processFrame {F : Type} (cv : CvOps F) (st : VideoThreadState) (frame : F) : F :=
  let frame := if st.mirror then cv.flip frame 1 else frame
  let frame := if st.flip then cv.flip frame 0 else frame
  let frame :=
    if st.rotate = 90 then cv.rotate frame RotateCode.ROTATE_90_CLOCKWISE
    else if st.rotate = 180 then cv.rotate frame RotateCode.ROTATE_180
    else if st.rotate = 270 then cv.rotate frame RotateCode.ROTATE_90_COUNTERCLOCKWISE
    else frame
  let frame := apply_effect cv st.effect frame
  cv.cvtColor frame ColorCode.BGR2RGB

/-- Pipeline step 1: optional horizontal mirror (`cv2.flip(frame, 1)`). -/
def mirrorStep {F : Type} (cv : CvOps F) (st : VideoThreadState) (f : F) : F :=
  if st.mirror then cv.flip f 1 else f

/-- Pipeline step 2: optional vertical flip (`cv2.flip(frame, 0)`). -/
def flipStep {F : Type} (cv : CvOps F) (st : VideoThreadState) (f : F) : F :=
  if st.flip then cv.flip f 0 else f

/-- Pipeline step 3: rotation by the current multiple of 90° when nonzero. -/
def rotateStep {F : Type} (cv : CvOps F) (st : VideoThreadState) (f : F) : F :=
  if st.rotate = 90 then cv.rotate f RotateCode.ROTATE_90_CLOCKWISE
  else if st.rotate = 180 then cv.rotate f RotateCode.ROTATE_180
  else if st.rotate = 270 then cv.rotate f RotateCode.ROTATE_90_COUNTERCLOCKWISE
  else f

/-- Pipeline step 4: the single effect transform chosen by the tag. -/
def effectStep {F : Type} (cv : CvOps F) (st : VideoThreadState) (f : F) : F :=
  apply_effect cv st.effect f

/-- Pipeline step 5: colour-space conversion from BGR to RGB for display. -/
def convertStep {F : Type} (cv : CvOps F) (f : F) : F :=
  cv.cvtColor f ColorCode.BGR2RGB

/-- The `while self.running` loop of `VideoThread.run`
(Flux_Cam.py lines 48-75), run over a finite trace of read results:
`none` is a read with `ret == False` (the loop `continue`s, emitting
nothing), `some f` is a successful read of frame `f` (the loop processes
and emits it).  The transform state is read afresh each iteration and never
written by the loop. -/
def run_loop {F : Type} (cv : CvOps F) (st : VideoThreadState) :
    List (Option F) → List F
  | [] => []
  | none :: rest => run_loop cv st rest
  | some f :: rest => processFrame cv st f :: run_loop cv st rest

/-- The `while self.running` guard at the top of the loop: a thread whose
`running` flag is false performs no iterations at all. -/
def run_while {F : Type} (cv : CvOps F) (st : VideoThreadState)
    (reads : List (Option F)) : List F :=
  if st.running then run_loop cv st reads else []

/-- Method `VideoThread.stop` (Flux_Cam.py lines 127-130): clear the `running`
flag; `self.wait()` then blocks only for the iterations a live loop still
performs, which `run_while` accounts for. -/
def stop (vt : VideoThreadState) : VideoThreadState :=
  { vt with running := false }

/-- Method `WebcamController.rotate_video` (Flux_Cam.py line 476) acting on the
`rotate` field: `self.video_thread.rotate = (self.video_thread.rotate + 90) % 360`. -/
def rotate_video (r : Int) : Int := (r + 90) % 360

/-! ## `update_control` (Flux_Cam.py lines 637-654) -/

/-- The possible outcomes of the `subprocess.run` call: normal completion
(with some return code — the code never inspects it), `TimeoutExpired`, or
any other exception. -/
inductive CallOutcome where
  | completed (returncode : Int)
  | timeoutExpired
  | failure (msg : String)
deriving DecidableEq

/-- The externally visible behaviour of one `update_control` call: the text
put on the label, the argv and timeout of the subprocess invocation (if
reached), what was printed, and the exception propagated to the caller
(always `none` in the source). -/
structure UpdateResult where
  labelText : Option String
  invokedCmd : Option (List String)
  invokedTimeout : Option ℚ
  logged : List String
  raised : Option String
deriving DecidableEq

/-- Python `str.replace('_', ' ')` on a character list. -/
def replaceUnderscore (l : List Char) : List Char :=
  l.map (fun c => if c = '_' then ' ' else c)

/-- Python `str.title()` on ASCII text (worker): `prevAlpha` records whether
the previous character was a letter; the first letter of every letter-run is
uppercased, the rest lowercased. -/
def titleCaseGo (prevAlpha : Bool) : List Char → List Char
  | [] => []
  | c :: rest =>
    if c.isAlpha then
      (if prevAlpha then c.toLower else c.toUpper) :: titleCaseGo true rest
    else c :: titleCaseGo false rest

/-- Python `str.title()` on ASCII text. -/
def titleCase (l : List Char) : List Char := titleCaseGo false l

/-- The label text `f"{control_name.replace('_',' ').title()}: {value}"`. -/
def controlLabelText (control_name : String) (value : Int) : String :=
  String.mk (titleCase (replaceUnderscore control_name.toList)) ++ ": " ++ toString value

/-- The argv of the mutation call
`['v4l2-ctl', '-d', device, '--set-ctrl', f'{control_name}={value}']`. -/
def v4l2_set_cmd (device control_name : String) (value : Int) : List String :=
  ["v4l2-ctl", "-d", device, "--set-ctrl", control_name ++ "=" ++ toString value]

/-- Method `WebcamController.update_control(control_name, value, label)`
(Flux_Cam.py lines 637-654): early return when no device is selected;
otherwise update the label, run the external mutation with `timeout=0.1`,
swallow `TimeoutExpired` silently, print-and-swallow any other exception;
nothing is ever raised to the caller. -/
def update_control (current_device : Option String) (control_name : String)
    (value : Int) (outcome : CallOutcome) : UpdateResult :=
  match current_device with
  | none =>
    { labelText := none, invokedCmd := none, invokedTimeout := none,
      logged := [], raised := none }
  | some dev =>
    let lbl := controlLabelText control_name value
    let cmd := v4l2_set_cmd dev control_name value
    match outcome with
    | CallOutcome.completed _ =>
      { labelText := some lbl, invokedCmd := some cmd,
        invokedTimeout := some (1/10), logged := [], raised := none }
    | CallOutcome.timeoutExpired =>
      { labelText := some lbl, invokedCmd := some cmd,
        invokedTimeout := some (1/10), logged := [], raised := none }
    | CallOutcome.failure msg =>
      { labelText := some lbl, invokedCmd := some cmd,
        invokedTimeout := some (1/10),
        logged := ["Error setting " ++ control_name ++ ": " ++ msg],
        raised := none }

/-- Trivial interpretation of the OpenCV primitives on the one-point frame
type, used to instantiate generic pipeline statements at a concrete input. -/
def unitOps : CvOps Unit where
  flip := fun _ _ => ()
  rotate := fun _ _ => ()
  cvtColor := fun _ _ => ()
  GaussianBlur := fun _ _ _ => ()
  Canny := fun _ _ _ => ()
  medianBlur := fun _ _ => ()
  adaptiveThreshold := fun _ _ _ _ => ()
  bilateralFilter := fun _ _ _ _ => ()
  bitwiseAnd := fun _ _ _ => ()
  transform := fun _ _ => ()
  bitwiseNot := fun _ => ()
  filter2D := fun _ _ _ => ()
  addScalar := fun _ _ => ()

/-! ## Helper lemmas -/

/-- The saturation clamp never goes below 0. -/
lemma sat8_nonneg (z : Int) : 0 ≤ sat8 z := le_max_left 0 _

/-- The saturation clamp never exceeds 255. -/
lemma sat8_le_255 (z : Int) : sat8 z ≤ 255 :=
  max_le (by norm_num) (min_le_left 255 z)

/-- Every control produced from a single line is either an integer control,
or a boolean control carrying the implicit bounds 0 and 1. -/
lemma parseControlLine_shape (line : String) (c : DeviceControl)
    (hc : c ∈ parseControlLine line) :
    c.kind = CtrlKind.Integer ∨
      (c.kind = CtrlKind.Boolean ∧ c.min = 0 ∧ c.max = 1) := by
  unfold parseControlLine parseLineChars at hc
  split at hc
  · simp at hc
  · split at hc
    · split at hc
      · simp only [List.mem_singleton] at hc
        subst hc
        exact Or.inl rfl
      · simp at hc
    · split at hc
      · split at hc
        · simp only [List.mem_singleton] at hc
          subst hc
          exact Or.inr ⟨rfl, rfl, rfl⟩
        · simp at hc
      · simp at hc

/-! ## Claims -/

/-- C1, counterexample.  The claim says the Sepia output red channel is
`0.393·R + 0.769·G + 0.189·B` (clamped).  On the pure-blue pixel
`(R,G,B) = (0,0,255)` — stored as `![255, 0, 0]` in BGR order — the code's
`cv2.transform(frame, kernel)` produces red `0.393·255 → 100`, because the
kernel rows are applied to the channel vector in its stored BGR order,
whereas the claimed formula gives `0.189·255 → 48`. -/
theorem sepia_claim_counterexample :
    sepiaPixel ![255, 0, 0] 2 = 100 ∧
    sepiaSpecPixel ![255, 0, 0] 2 = 48 ∧
    sepiaPixel ![255, 0, 0] 2 ≠ sepiaSpecPixel ![255, 0, 0] 2 := by
  have h1 : sepiaPixel ![255, 0, 0] 2 = 100 := by
    norm_num [sepiaPixel, cv2_transform3, sepiaKernel, Fin.sum_univ_three, cvRound, sat8]
  have h2 : sepiaSpecPixel ![255, 0, 0] 2 = 48 := by
    norm_num [sepiaSpecPixel, cvRound, sat8]
  exact ⟨h1, h2, by rw [h1, h2]; decide⟩

/-- C1, amended.  For every input pixel, the Sepia effect applies the fixed
3×3 matrix to the channel vector in its stored BGR order: with `B = p 0`,
`G = p 1`, `R = p 2`, the output is `output_R = 0.393·B + 0.769·G + 0.189·R`,
`output_G = 0.349·B + 0.686·G + 0.168·R`, `output_B = 0.272·B + 0.534·G +
0.131·R`, each rounded and clamped to the valid 8-bit range `[0, 255]`. -/
theorem sepia_bgr_rows (p : Fin 3 → Int) :
    sepiaPixel p 2
        = sat8 (cvRound (0.393 * (p 0 : ℚ) + 0.769 * (p 1 : ℚ) + 0.189 * (p 2 : ℚ))) ∧
    sepiaPixel p 1
        = sat8 (cvRound (0.349 * (p 0 : ℚ) + 0.686 * (p 1 : ℚ) + 0.168 * (p 2 : ℚ))) ∧
    sepiaPixel p 0
        = sat8 (cvRound (0.272 * (p 0 : ℚ) + 0.534 * (p 1 : ℚ) + 0.131 * (p 2 : ℚ))) ∧
    ∀ i, 0 ≤ sepiaPixel p i ∧ sepiaPixel p i ≤ 255 := by
  refine ⟨?_, ?_, ?_, fun i => ⟨sat8_nonneg _, sat8_le_255 _⟩⟩ <;>
    simp [sepiaPixel, cv2_transform3, sepiaKernel, Fin.sum_univ_three]

/-- C2, counterexample.  The claim says a line containing the marker
`flags=has-payload` yields no control even if it otherwise matches the
boolean pattern; but the boolean branch of `parse_and_create_controls`
checks only for `inactive`, so this boolean line carrying the
`flags=has-payload` marker still yields a control. -/
theorem marker_exclusion_counterexample :
    containsCL "flags=has-payload".toList
      "white_balance_automatic 0x0009 (bool) : default=1 value=0 flags=has-payload".toList
      = true ∧
    parseControlLine
      "white_balance_automatic 0x0009 (bool) : default=1 value=0 flags=has-payload"
      = [⟨"white_balance_automatic", CtrlKind.Boolean, 0, 1, 1, 0⟩] := by
  refine ⟨?_, ?_⟩ <;> decide

/-- C2, amended.  A line containing the marker `inactive` yields no control;
a line containing the marker `flags=has-payload` yields no INTEGER control
(the integer branch checks for it), but a boolean line containing
`flags=has-payload` is still parsed, so such a line can only yield a
boolean control. -/
theorem marker_exclusion (line : String) :
    (containsCL "inactive".toList line.toList = true → parseControlLine line = []) ∧
    (containsCL "flags=has-payload".toList line.toList = true →
      ∀ c ∈ parseControlLine line, c.kind = CtrlKind.Boolean) := by
  constructor
  · intro h
    simp only [String.toList] at h
    unfold parseControlLine parseLineChars
    split
    · rfl
    · split
      · simp [String.toList, h]
      · simp [String.toList, h]
  · intro h c hc
    simp only [String.toList] at h
    unfold parseControlLine parseLineChars at hc
    split at hc
    · simp at hc
    · split at hc
      · simp [String.toList, h] at hc
      · split at hc
        · split at hc
          · simp only [List.mem_singleton] at hc
            subst hc
            rfl
          · simp at hc
        · simp at hc

/-- C2, amended, witness: on the integer line with `flags=inactive` no
control is produced; on the boolean line with `flags=has-payload` every
produced control is boolean. -/
theorem marker_exclusion_witness :
    parseControlLine
      "brightness 0x0098 (int) : min=0 max=255 step=1 default=128 value=64 flags=inactive"
      = [] ∧
    ∀ c ∈ parseControlLine
      "white_balance_automatic 0x0009 (bool) : default=1 value=0 flags=has-payload",
      c.kind = CtrlKind.Boolean :=
  ⟨(marker_exclusion _).1 (by decide), (marker_exclusion _).2 (by decide)⟩

/-- C3.  For every captured frame, the body of one successful iteration of
`VideoThread.run` is exactly the composition, in this fixed order, of:
(1) the optional horizontal mirror, (2) the optional vertical flip, (3) the
rotation by the current multiple of 90° when nonzero, (4) the single effect
transform selected by the current effect tag, and (5) the BGR→RGB
colour-space conversion for display. -/
theorem pipeline_fixed_order {F : Type} (cv : CvOps F) (st : VideoThreadState)
    (frame : F) :
    processFrame cv st frame
      = convertStep cv
          (effectStep cv st
            (rotateStep cv st
              (flipStep cv st
                (mirrorStep cv st frame)))) := rfl

/-- C4.  On the literal line
`brightness 0x0098 (int) : min=0 max=255 step=1 default=128 value=64`
the parser yields exactly one control: name `brightness`, kind Integer,
min 0, max 255, default 128, current value 64. -/
theorem brightness_line_parse :
    parse_and_create_controls
      "brightness 0x0098 (int) : min=0 max=255 step=1 default=128 value=64"
      = [⟨"brightness", CtrlKind.Integer, 0, 255, 128, 64⟩] := by
  decide

/-- C5.  Every boolean control the parser produces carries the implicit
bounds `min = 0` and `max = 1`; and on the literal line
`white_balance_automatic 0x0009 (bool) : default=1 value=0` the parser
yields exactly one control: name `white_balance_automatic`, kind Boolean,
min 0, max 1, default 1, current 0. -/
theorem bool_implicit_bounds (line : String) (c : DeviceControl)
    (hc : c ∈ parseControlLine line) (hk : c.kind = CtrlKind.Boolean) :
    (c.min = 0 ∧ c.max = 1) ∧
    parse_and_create_controls
      "white_balance_automatic 0x0009 (bool) : default=1 value=0"
      = [⟨"white_balance_automatic", CtrlKind.Boolean, 0, 1, 1, 0⟩] := by
  refine ⟨?_, by decide⟩
  rcases parseControlLine_shape line c hc with h | h
  · rw [hk] at h
    exact absurd h (by decide)
  · exact ⟨h.2.1, h.2.2⟩

/-- C5, witness: instantiated at the literal boolean line and the control it
produces. -/
theorem bool_implicit_bounds_witness :
    (((⟨"white_balance_automatic", CtrlKind.Boolean, 0, 1, 1, 0⟩ : DeviceControl).min = 0 ∧
      (⟨"white_balance_automatic", CtrlKind.Boolean, 0, 1, 1, 0⟩ : DeviceControl).max = 1) ∧
     parse_and_create_controls
       "white_balance_automatic 0x0009 (bool) : default=1 value=0"
       = [⟨"white_balance_automatic", CtrlKind.Boolean, 0, 1, 1, 0⟩]) :=
  bool_implicit_bounds
    "white_balance_automatic 0x0009 (bool) : default=1 value=0"
    ⟨"white_balance_automatic", CtrlKind.Boolean, 0, 1, 1, 0⟩
    (by decide) (by decide)

/-- C6.  At every interior pixel of every channel, the Emboss effect is the
3×3 cross-correlation with kernel `[[0,-1,-1],[1,0,-1],[1,1,0]]`, saturated
to the 8-bit range, followed by adding the constant 128 with wraparound
modulo `2^8` — 8-bit unsigned arithmetic with overflow: the result always
lies in `[0, 2^8)`, and on a neighbourhood whose correlation saturates at
255, adding 128 wraps around to 127. -/
theorem emboss_kernel_offset_wrap (n : Fin 3 → Fin 3 → Int) :
    emboss_at n
      = (sat8 (n 1 0 + n 2 0 + n 2 1 - n 0 1 - n 0 2 - n 1 2) + 128) % 2 ^ 8 ∧
    (0 ≤ emboss_at n ∧ emboss_at n < 2 ^ 8) ∧
    emboss_at ![![0, 0, 0], ![255, 0, 0], ![255, 255, 0]] = 127 := by
  refine ⟨?_, ⟨?_, ?_⟩, by decide⟩
  · have h : (∑ i, ∑ j, embossKernel i j * n i j)
        = n 1 0 + n 2 0 + n 2 1 - n 0 1 - n 0 2 - n 1 2 := by
      simp [Fin.sum_univ_three, embossKernel, Matrix.vecHead, Matrix.vecTail]
      ring
    norm_num [emboss_at, filter2D_at, h]
  · exact Int.emod_nonneg _ (by norm_num)
  · exact Int.emod_lt_of_pos _ (by norm_num)

/-- C7.  Over any finite trace of read results, the capture loop emits
exactly the processed successful frames, in order: iterations whose read
fails (`ret = false`, modelled as `none`) emit nothing, do not terminate the
loop (later frames are still processed), and do not modify the transform
state (the same state processes every later frame). -/
theorem failed_read_skipped {F : Type} (cv : CvOps F) (st : VideoThreadState)
    (reads : List (Option F)) :
    run_loop cv st reads = (reads.filterMap id).map (processFrame cv st) ∧
    ∀ rest : List (Option F), run_loop cv st (none :: rest) = run_loop cv st rest := by
  refine ⟨?_, fun rest => rfl⟩
  induction reads with
  | nil => rfl
  | cons r rest ih =>
    cases r with
    | none => simpa [run_loop] using ih
    | some f => simpa [run_loop] using ih

/-- C8.  With a device selected, `update_control` always invokes the
external mutation call with the sub-second timeout 0.1, and never raises to
the caller: a `TimeoutExpired` is swallowed with nothing logged, and any
other failure is logged and swallowed. -/
theorem update_control_swallows (dev control_name : String) (value : Int)
    (outcome : CallOutcome) :
    (update_control (some dev) control_name value outcome).invokedCmd
        = some (v4l2_set_cmd dev control_name value) ∧
    (update_control (some dev) control_name value outcome).invokedTimeout
        = some (1/10) ∧
    (1 : ℚ)/10 < 1 ∧
    (update_control (some dev) control_name value outcome).raised = none ∧
    (outcome = CallOutcome.timeoutExpired →
      (update_control (some dev) control_name value outcome).logged = []) ∧
    (∀ msg, outcome = CallOutcome.failure msg →
      (update_control (some dev) control_name value outcome).logged
        = ["Error setting " ++ control_name ++ ": " ++ msg]) := by
  cases outcome <;>
    simp_all [update_control] <;> norm_num

/-- C8, witness: a timed-out write of brightness 128 on a concrete device
invokes the call, raises nothing and logs nothing. -/
theorem update_control_swallows_witness :
    (update_control (some "/dev/video0") "brightness" 128
        CallOutcome.timeoutExpired).raised = none ∧
    (update_control (some "/dev/video0") "brightness" 128
        CallOutcome.timeoutExpired).logged = [] :=
  ⟨(update_control_swallows "/dev/video0" "brightness" 128
      CallOutcome.timeoutExpired).2.2.2.1,
   (update_control_swallows "/dev/video0" "brightness" 128
      CallOutcome.timeoutExpired).2.2.2.2.1 rfl⟩

/-- C9.  Calling `stop` on a capture loop that is not running is a no-op:
the state is left unchanged (in particular still not running), and the
`while self.running` loop performs zero iterations, so `self.wait()` has
nothing to block on. -/
theorem stop_idle_noop {F : Type} (cv : CvOps F) (reads : List (Option F))
    (vt : VideoThreadState) (h : vt.running = false) :
    stop vt = vt ∧ (stop vt).running = false ∧ run_while cv (stop vt) reads = [] := by
  obtain ⟨d, r, m, f, ro, e⟩ := vt
  cases h
  exact ⟨rfl, rfl, rfl⟩

/-- C9, witness: stopping the freshly constructed, never-started thread. -/
theorem stop_idle_noop_witness :
    stop VideoThread_init = VideoThread_init ∧
    (stop VideoThread_init).running = false ∧
    run_while unitOps (stop VideoThread_init) [none, some ()] = [] :=
  stop_idle_noop unitOps [none, some ()] VideoThread_init (by decide)

/-- C10.  The `rotate` field starts at 0 and every application of
`rotate_video` (add 90, modulo 360) keeps it in `{0, 90, 180, 270}`, for any
number of applications. -/
theorem rotate_always_quarter_turn :
    VideoThread_init.rotate = 0 ∧
    ∀ n : ℕ, rotate_video^[n] VideoThread_init.rotate
      ∈ ({0, 90, 180, 270} : Finset Int) := by
  refine ⟨rfl, fun n => ?_⟩
  induction n with
  | zero => decide
  | succ n ih =>
    rw [Function.iterate_succ_apply']
    revert ih
    have h : ∀ r ∈ ({0, 90, 180, 270} : Finset Int),
        rotate_video r ∈ ({0, 90, 180, 270} : Finset Int) := by decide
    exact h _

end FluxCam
